import Mathlib

/-!
Shallow embedding of the Coffee-Music-Personality classification core
(`src/app.py`): tokenizer, lexicon counter, dominant-category selector,
energy resolver, persona mapper and the analysis orchestrator.

Modelling conventions:
* Python dicts (which iterate in insertion order) are association lists
  `List (String × _)` in declaration order.
* Python dict subscription `d[k]`, which raises `KeyError` on a missing
  key, is `dictGet`, returning `Option`; a raised exception is `none`
  propagated through the `Option` monad.
* `str.lower`, `str.split()` and `str.strip()` are modelled on the ASCII
  fragment (all lexicon words and all inputs of interest are ASCII):
  `pyLower` lowercases `A`-`Z`, `isSpace` is the six ASCII whitespace
  characters, and `isPunct` is exactly Python's `string.punctuation`
  (the 32 ASCII characters in the ranges 33-47, 58-64, 91-96, 123-126).
* `max(d, key=lambda k: d[k])` keeps the first key on ties (Python `max`
  replaces the running best only on a strictly greater key); `maxKey`
  reproduces that scan.
-/

/-- ASCII whitespace, the characters `str.split()` splits on
(space, tab, newline, vertical tab, form feed, carriage return). -/
def isSpace (c : Char) : Bool :=
  c.toNat = 32 || (9 ≤ c.toNat && c.toNat ≤ 13)

/-- Membership in Python's `string.punctuation`
(ASCII codes 33-47, 58-64, 91-96, 123-126). -/
def isPunct (c : Char) : Bool :=
  (33 ≤ c.toNat && c.toNat ≤ 47) || (58 ≤ c.toNat && c.toNat ≤ 64) ||
  (91 ≤ c.toNat && c.toNat ≤ 96) || (123 ≤ c.toNat && c.toNat ≤ 126)

/-- `str.lower` on the ASCII range: map `A`-`Z` to `a`-`z`. -/
def pyLower (c : Char) : Char :=
  if 65 ≤ c.toNat ∧ c.toNat ≤ 90 then Char.ofNat (c.toNat + 32) else c

/-- Worker for `str.split()`: accumulate the current word (reversed) and
emit it at each whitespace run or at the end. -/
def splitWsAux : List Char → List Char → List (List Char)
  | [], acc => if acc.isEmpty then [] else [acc.reverse]
  | c :: rest, acc =>
    if isSpace c then
      if acc.isEmpty then splitWsAux rest []
      else acc.reverse :: splitWsAux rest []
    else splitWsAux rest (c :: acc)

/-- Python `str.split()` (no separator): split on whitespace runs,
never producing empty words. -/
def splitWs (cs : List Char) : List (List Char) :=
  splitWsAux cs []

/-- Python `str.strip()` on the ASCII fragment: drop leading and
trailing whitespace. -/
def pyStrip (cs : List Char) : List Char :=
  ((cs.dropWhile isSpace).reverse.dropWhile isSpace).reverse

/-- `preprocess` (src/app.py, lines 124-129): lowercase, delete every
punctuation character, split on whitespace, keep only words that are
nonempty after stripping (a no-op after `split()`, kept for fidelity). -/
def preprocess (text : String) : List String :=
  let lowered := text.data.map pyLower
  let depunct := lowered.filter (fun c => !(isPunct c))
  let tokens := (splitWs depunct).map (fun w => String.mk w)
  tokens.filter (fun t => !(pyStrip t.data).isEmpty)

-- =========================
-- Lexicons (src/app.py, lines 42-118), verbatim and in declaration order
-- =========================

def mood_lexicon : List (String × List String) :=
  [("chill",
    ["calm", "relax", "relaxed", "chill", "peaceful", "soft",
     "soothing", "smooth", "mellow", "gentle", "quiet", "cozy"]),
   ("happy",
    ["happy", "bright", "cheerful", "fun", "upbeat", "uplifting",
     "joyful", "exciting", "excited", "optimistic", "hopeful"]),
   ("sad",
    ["sad", "melancholy", "blue", "lonely", "depressed",
     "heartbroken", "down", "gloomy"]),
   ("intense",
    ["intense", "strong", "aggressive", "powerful", "heavy",
     "hard", "raw", "angry"]),
   ("nostalgic",
    ["nostalgic", "old", "retro", "memory", "memories",
     "throwback", "vintage", "classic", "childhood"])]

def energy_lexicon : List (String × List String) :=
  [("high",
    ["fast", "loud", "energetic", "dance", "party", "rock",
     "run", "running", "jog", "workout", "gym", "cardio",
     "intense", "hype", "powerful", "hard"]),
   ("low",
    ["slow", "soft", "quiet", "ambient", "background",
     "sleep", "sleepy", "bedtime", "chill", "relax", "relaxed", "calm"])]

def genre_lexicon : List (String × List String) :=
  [("lofi", ["lofi", "lo-fi", "beat tape", "chillhop"]),
   ("jazz", ["jazz", "sax", "saxophone", "swing", "bebop"]),
   ("classical", ["classical", "piano", "orchestra", "symphony", "violin", "cello"]),
   ("ambient", ["ambient", "drone", "soundscape"]),
   ("rock", ["rock", "metal", "punk", "hardcore", "alt-rock", "alternative"]),
   ("indie", ["indie", "indie-rock", "indie-pop"]),
   ("pop", ["pop", "kpop", "k-pop", "jpop", "j-pop", "c-pop", "cpop"]),
   ("edm", ["edm", "electronic", "techno", "house", "trance", "dubstep"]),
   ("hiphop", ["hiphop", "hip-hop", "rap", "trap"]),
   ("rnb", ["rnb", "r&b", "soul", "neo-soul", "funk"]),
   ("folk", ["folk", "acoustic", "singer-songwriter"]),
   ("country", ["country", "bluegrass"]),
   ("latin", ["latin", "reggaeton", "salsa", "bossa", "bossa nova"]),
   ("reggae", ["reggae", "dub"]),
   ("soundtrack", ["soundtrack", "ost", "score", "movie score", "game music"])]

def context_lexicon : List (String × List String) :=
  [("study", ["study", "studying", "homework", "exam", "reading", "library"]),
   ("commute", ["commute", "bus", "train", "subway", "metro", "driving", "car", "walk", "walking"]),
   ("workout", ["workout", "gym", "run", "running", "jog", "cardio", "exercise"]),
   ("sleep", ["sleep", "sleepy", "bedtime", "before bed", "night", "fall asleep"]),
   ("relax", ["relax", "relaxed", "relaxing", "chill", "weekend", "coffee", "cafe", "cozy"]),
   ("party", ["party", "club", "dancefloor", "festival"])]

-- =========================
-- Counting and selection (src/app.py, lines 132-170)
-- =========================

/-- Python dict subscription `d[k]` on an insertion-ordered dict:
`none` models the `KeyError` raised on a missing key. -/
def dictGet : List (String × α) → String → Option α
  | [], _ => none
  | (k, v) :: rest, key => if k = key then some v else dictGet rest key

/-- `count_from_lexicon` (src/app.py, lines 132-139): for each category,
in lexicon order, the number of tokens (with multiplicity) that occur in
that category's word list.  The source initialises every key to `0` and
then, category by category, adds `1` per matching token; because the
categories are distinct dict keys this is the per-category count below. -/
def count_from_lexicon (tokens : List String) (lexicon : List (String × List String)) :
    List (String × Nat) :=
  lexicon.map (fun cw => (cw.1, tokens.countP (fun w => cw.2.contains w)))

/-- The scan of Python `max(d, key=lambda k: d[k])`: replace the running
best only on a strictly greater value, so the first maximum wins. -/
def maxKey : List (String × Nat) → (String × Nat) → (String × Nat)
  | [], best => best
  | (k, v) :: rest, best => maxKey rest (if v > best.2 then (k, v) else best)

/-- `get_max_or_none` (src/app.py, lines 142-147): `(None, 0)` on the
empty dict, otherwise the first key with maximal count together with its
count (the source rereads `counts_dict[max_cat]`, which is that same
count since the keys are distinct). -/
def get_max_or_none (counts_dict : List (String × Nat)) : Option String × Nat :=
  match counts_dict with
  | [] => (none, 0)
  | p :: rest =>
    let best := maxKey rest p
    (some best.1, best.2)

/-- `decide_energy` (src/app.py, lines 150-170): explicit energy words
plus context cues (`workout`/`party` count as high, `sleep`/`relax`/`study`
as low); `none` models a `KeyError` on a missing key. -/
def decide_energy (energy_counts context_counts : List (String × Nat)) : Option String := do
  let base_high ← dictGet energy_counts "high"
  let base_low ← dictGet energy_counts "low"
  let cw ← dictGet context_counts "workout"
  let cp ← dictGet context_counts "party"
  let cs ← dictGet context_counts "sleep"
  let cr ← dictGet context_counts "relax"
  let ct ← dictGet context_counts "study"
  let context_high := cw + cp
  let context_low := cs + cr + ct
  let total_high := base_high + context_high
  let total_low := base_low + context_low
  if total_high > total_low then pure "high"
  else if total_low > total_high then pure "low"
  else pure "mixed"

-- =========================
-- Persona mapper (src/app.py, lines 176-276)
-- =========================

/-- `map_persona_to_coffee` (src/app.py, lines 176-276): the ordered rule
cascade, each Python `if ... return` rendered as one `if ... else` layer.
`main_mood`, `main_genre` and `main_context` are `Option String` because
`get_max_or_none` can return `None`; a Python membership test of a
possibly-`None` value against a list of strings is false at `none`, and
the rule-1 context list literally contains `None`. -/
def map_persona_to_coffee (main_mood main_genre : Option String)
    (energy_level : String) (main_context : Option String)
    (mood_score genre_score : Nat) : String × String :=
  -- 0. No matches at all → Mystery Blend
  if mood_score = 0 ∧ genre_score = 0 then
    ("☕ Mystery Blend Coffee",
     "From your description, I could not detect any of the mood/genre keywords in this small lexicon. This suggests that your taste is either very unique or simply outside my current database. You are like a mystery blend: it takes time to discover all the flavors.")
  -- 1. chill + lofi/jazz/ambient/R&B + study/relax + not high energy → Matcha Latte
  else if main_mood = some "chill"
      ∧ (main_genre = some "lofi" ∨ main_genre = some "jazz"
         ∨ main_genre = some "ambient" ∨ main_genre = some "rnb")
      ∧ energy_level ≠ "high"
      ∧ (main_context = some "study" ∨ main_context = some "relax"
         ∨ main_context = none) then
    ("🍵 Matcha Latte",
     "You seem to enjoy calm, smooth, and atmospheric music (lofi / jazz / ambient / R&B), often for studying or relaxing. Your music personality is like a matcha latte: gentle, soothing, and a bit ritualistic.")
  -- 2. high energy + pop/edm/latin + commute/workout/party → Iced Americano
  else if energy_level = "high"
      ∧ (main_genre = some "pop" ∨ main_genre = some "edm" ∨ main_genre = some "latin")
      ∧ (main_context = some "commute" ∨ main_context = some "workout"
         ∨ main_context = some "party") then
    ("🧊 Iced Americano",
     "Your playlist is bright, refreshing, and energetic (pop / EDM / Latin), especially when you are on the move. You are like an iced Americano: clear, sharp, and perfect for waking up your day.")
  -- 3. high energy + rock/hiphop/indie → Espresso Shot
  else if energy_level = "high"
      ∧ (main_genre = some "rock" ∨ main_genre = some "hiphop" ∨ main_genre = some "indie") then
    ("⚡ Espresso Shot",
     "Your music is intense and full of impact (rock / metal / hip-hop / indie). You are like an espresso shot: small but very strong.")
  -- 4. nostalgic or soundtrack/folk → Hand-brewed Black Coffee
  else if main_mood = some "nostalgic"
      ∨ main_genre = some "soundtrack" ∨ main_genre = some "folk" then
    ("☕ Hand-brewed Black Coffee",
     "You gravitate towards music that carries stories and memories — soundtracks, folk songs, or classics that remind you of specific moments. Your music personality is like a hand-brewed black coffee: slow, thoughtful, and deep.")
  -- 5. sad → Mocha
  else if main_mood = some "sad" then
    ("🍫 Mocha",
     "You resonate with emotional or slightly melancholic music. You are like a mocha: a mix of bitterness and sweetness, with rich emotional flavor.")
  -- 6. happy + pop/edm/rnb/latin → Caramel Macchiato
  else if main_mood = some "happy"
      ∧ (main_genre = some "pop" ∨ main_genre = some "edm"
         ∨ main_genre = some "rnb" ∨ main_genre = some "latin") then
    ("🍮 Caramel Macchiato",
     "You enjoy cheerful, fun, and catchy songs. Your music personality is like a caramel macchiato: sweet, playful, and crowd-pleasing.")
  -- 7. classical/jazz + study/relax/sleep → Flat White
  else if (main_genre = some "classical" ∨ main_genre = some "jazz")
      ∧ (main_context = some "study" ∨ main_context = some "relax"
         ∨ main_context = some "sleep") then
    ("🥛 Flat White",
     "You appreciate structure, detail, and balance in music (classical / jazz), often as a companion for reading or quiet time. Your music personality is like a flat white: refined, smooth, and carefully crafted.")
  -- 8. default → House Blend
  else
    ("🫘 House Blend",
     "Your music taste seems quite diverse and not dominated by any single mood or genre in this lexicon. You are like a house blend: a balanced mix of different flavors.")

-- =========================
-- Orchestrator (src/app.py, lines 279-314)
-- =========================

/-- The result dict assembled by `analyze_music_personality`
(src/app.py, lines 298-313), as an immutable record. -/
structure AnalysisResult where
  tokens : List String
  mood_counts : List (String × Nat)
  energy_counts : List (String × Nat)
  genre_counts : List (String × Nat)
  context_counts : List (String × Nat)
  main_mood : Option String
  main_mood_score : Nat
  main_genre : Option String
  main_genre_score : Nat
  main_context : Option String
  main_context_score : Nat
  energy_level : String
  coffee : String
  explanation : String
deriving Repr, DecidableEq

/-- `analyze_music_personality` (src/app.py, lines 279-314): the full
pipeline.  `Option` carries the potential `KeyError` of `decide_energy`
(which in fact never fires, see `analyze_music_personality_eq`). -/
def analyze_music_personality (text : String) : Option AnalysisResult := do
  let tokens := preprocess text
  let mood_counts := count_from_lexicon tokens mood_lexicon
  let energy_counts := count_from_lexicon tokens energy_lexicon
  let genre_counts := count_from_lexicon tokens genre_lexicon
  let context_counts := count_from_lexicon tokens context_lexicon
  let mood := get_max_or_none mood_counts
  let genre := get_max_or_none genre_counts
  let context := get_max_or_none context_counts
  let energy_level ← decide_energy energy_counts context_counts
  let coffee := map_persona_to_coffee mood.1 genre.1 energy_level context.1 mood.2 genre.2
  pure {
    tokens := tokens
    mood_counts := mood_counts
    energy_counts := energy_counts
    genre_counts := genre_counts
    context_counts := context_counts
    main_mood := mood.1
    main_mood_score := mood.2
    main_genre := genre.1
    main_genre_score := genre.2
    main_context := context.1
    main_context_score := context.2
    energy_level := energy_level
    coffee := coffee.1
    explanation := coffee.2
  }

-- =========================
-- Derived definitions used by the verification
-- =========================

/-- The energy level `decide_energy` actually produces on the count maps
built by the orchestrator (the `KeyError` branch never fires there, see
`decide_energy_on_counts`). -/
def energyOf (tokens : List String) : String :=
  (decide_energy (count_from_lexicon tokens energy_lexicon)
    (count_from_lexicon tokens context_lexicon)).getD "mixed"

/-- The analysis result as an explicit total function of the input text;
`analyze_music_personality_eq` proves the orchestrator returns exactly
this record (wrapped in `some`). -/
def resultOf (text : String) : AnalysisResult :=
  let tokens := preprocess text
  let mood_counts := count_from_lexicon tokens mood_lexicon
  let energy_counts := count_from_lexicon tokens energy_lexicon
  let genre_counts := count_from_lexicon tokens genre_lexicon
  let context_counts := count_from_lexicon tokens context_lexicon
  let mood := get_max_or_none mood_counts
  let genre := get_max_or_none genre_counts
  let context := get_max_or_none context_counts
  let energy_level := energyOf tokens
  let coffee := map_persona_to_coffee mood.1 genre.1 energy_level context.1 mood.2 genre.2
  {
    tokens := tokens
    mood_counts := mood_counts
    energy_counts := energy_counts
    genre_counts := genre_counts
    context_counts := context_counts
    main_mood := mood.1
    main_mood_score := mood.2
    main_genre := genre.1
    main_genre_score := genre.2
    main_context := context.1
    main_context_score := context.2
    energy_level := energy_level
    coffee := coffee.1
    explanation := coffee.2
  }

/-- The nine persona labels of the rule cascade. -/
def personaLabels : List String :=
  ["☕ Mystery Blend Coffee", "🍵 Matcha Latte", "🧊 Iced Americano",
   "⚡ Espresso Shot", "☕ Hand-brewed Black Coffee", "🍫 Mocha",
   "🍮 Caramel Macchiato", "🥛 Flat White", "🫘 House Blend"]

/-- Well-formedness of an analysis result, as the spec's data-model
invariants state it: each count map's key list equals its lexicon's
category list, the energy level is one of the three allowed strings, and
the persona label is one of the nine fixed outputs. -/
def resultWellFormed (r : AnalysisResult) : Prop :=
  r.mood_counts.map Prod.fst = mood_lexicon.map Prod.fst ∧
  r.energy_counts.map Prod.fst = energy_lexicon.map Prod.fst ∧
  r.genre_counts.map Prod.fst = genre_lexicon.map Prod.fst ∧
  r.context_counts.map Prod.fst = context_lexicon.map Prod.fst ∧
  r.energy_level ∈ (["high", "low", "mixed"] : List String) ∧
  r.coffee ∈ personaLabels

-- =========================
-- Helper lemmas
-- =========================

/-- The key list of a count map is the lexicon's category list. -/
theorem count_from_lexicon_keys (tokens : List String) (lexicon : List (String × List String)) :
    (count_from_lexicon tokens lexicon).map Prod.fst = lexicon.map Prod.fst := by
  simp [count_from_lexicon, List.map_map]

/-- Dict access commutes with the per-category counting map. -/
theorem dictGet_count_from_lexicon (tokens : List String)
    (lexicon : List (String × List String)) (key : String) :
    dictGet (count_from_lexicon tokens lexicon) key =
      (dictGet lexicon key).map (fun ws => tokens.countP (fun w => ws.contains w)) := by
  induction lexicon with
  | nil => rfl
  | cons p rest ih =>
    obtain ⟨k, ws⟩ := p
    simp only [count_from_lexicon, List.map_cons, dictGet] at ih ⊢
    by_cases h : k = key
    · rw [if_pos h, if_pos h]; rfl
    · rw [if_neg h, if_neg h]; exact ih

/-- On the count maps the orchestrator builds, every key `decide_energy`
reads is present, so it returns `some (energyOf tokens)`. -/
theorem decide_energy_on_counts (tokens : List String) :
    decide_energy (count_from_lexicon tokens energy_lexicon)
      (count_from_lexicon tokens context_lexicon) = some (energyOf tokens) := by
  obtain ⟨w1, h1⟩ := Option.isSome_iff_exists.mp
    (show (dictGet energy_lexicon "high").isSome by decide)
  obtain ⟨w2, h2⟩ := Option.isSome_iff_exists.mp
    (show (dictGet energy_lexicon "low").isSome by decide)
  obtain ⟨w3, h3⟩ := Option.isSome_iff_exists.mp
    (show (dictGet context_lexicon "workout").isSome by decide)
  obtain ⟨w4, h4⟩ := Option.isSome_iff_exists.mp
    (show (dictGet context_lexicon "party").isSome by decide)
  obtain ⟨w5, h5⟩ := Option.isSome_iff_exists.mp
    (show (dictGet context_lexicon "sleep").isSome by decide)
  obtain ⟨w6, h6⟩ := Option.isSome_iff_exists.mp
    (show (dictGet context_lexicon "relax").isSome by decide)
  obtain ⟨w7, h7⟩ := Option.isSome_iff_exists.mp
    (show (dictGet context_lexicon "study").isSome by decide)
  unfold energyOf
  simp only [decide_energy, dictGet_count_from_lexicon, h1, h2, h3, h4, h5, h6, h7,
    Option.map_some', Option.bind_eq_bind, Option.some_bind']
  split_ifs <;> rfl

/-- The orchestrator never hits the `KeyError` branch: it returns
exactly the record `resultOf`. -/
theorem analyze_music_personality_eq (text : String) :
    analyze_music_personality text = some (resultOf text) := by
  simp only [analyze_music_personality, resultOf, decide_energy_on_counts]
  rfl

/-- Any energy level `decide_energy` returns is one of the three
allowed strings. -/
theorem decide_energy_result_mem (ec cc : List (String × Nat)) (r : String)
    (h : decide_energy ec cc = some r) : r = "high" ∨ r = "low" ∨ r = "mixed" := by
  simp only [decide_energy, bind, Option.bind_eq_some] at h
  obtain ⟨bh, -, bl, -, cw, -, cp, -, cs, -, cr, -, ct, -, h⟩ := h
  split_ifs at h <;> simp only [pure, Option.some.injEq] at h <;> tauto

/-- The persona label is always one of the nine fixed outputs. -/
theorem map_persona_to_coffee_fst_mem (mm mg : Option String) (el : String)
    (mc : Option String) (ms gs : Nat) :
    (map_persona_to_coffee mm mg el mc ms gs).1 ∈ personaLabels := by
  unfold map_persona_to_coffee
  split_ifs <;> simp [personaLabels]

/-- `maxKey` either keeps `best` (when nothing beats it strictly) or picks
the first element of the scanned list that strictly beats `best` and
everything before it, and that no later element strictly beats. -/
theorem maxKey_split (rest : List (String × Nat)) (best : String × Nat) :
    (maxKey rest best = best ∧ ∀ p ∈ rest, p.2 ≤ best.2) ∨
    (∃ pre k v post, rest = pre ++ (k, v) :: post ∧ maxKey rest best = (k, v) ∧
      best.2 < v ∧ (∀ p ∈ pre, p.2 < v) ∧ (∀ p ∈ post, p.2 ≤ v)) := by
  induction rest generalizing best with
  | nil => exact Or.inl ⟨rfl, by simp⟩
  | cons q rest ih =>
    obtain ⟨k0, v0⟩ := q
    by_cases hv : v0 > best.2
    · have hstep : maxKey ((k0, v0) :: rest) best = maxKey rest (k0, v0) := by
        simp only [maxKey]; rw [if_pos hv]
      rcases ih (k0, v0) with ⟨heq, hle⟩ | ⟨pre, k, v, post, hsplit, heq, hlt, hpre, hpost⟩
      · refine Or.inr ⟨[], k0, v0, rest, by simp, ?_, hv, by simp, hle⟩
        rw [hstep, heq]
      · refine Or.inr ⟨(k0, v0) :: pre, k, v, post, by rw [hsplit]; rfl, ?_, ?_, ?_, hpost⟩
        · rw [hstep, heq]
        · exact lt_trans hv hlt
        · intro p hp
          rcases List.mem_cons.mp hp with h | h
          · rw [h]; exact hlt
          · exact hpre p h
    · have hstep : maxKey ((k0, v0) :: rest) best = maxKey rest best := by
        simp only [maxKey]; rw [if_neg hv]
      push_neg at hv
      rcases ih best with ⟨heq, hle⟩ | ⟨pre, k, v, post, hsplit, heq, hlt, hpre, hpost⟩
      · refine Or.inl ⟨by rw [hstep, heq], ?_⟩
        intro p hp
        rcases List.mem_cons.mp hp with h | h
        · rw [h]; exact hv
        · exact hle p h
      · refine Or.inr ⟨(k0, v0) :: pre, k, v, post, by rw [hsplit]; rfl, by rw [hstep, heq], hlt, ?_, hpost⟩
        intro p hp
        rcases List.mem_cons.mp hp with h | h
        · rw [h]; exact lt_of_le_of_lt hv hlt
        · exact hpre p h

-- =========================
-- Claim theorems
-- =========================

/-- C1: the persona mapper is an ordered cascade whose first rule wins:
whenever `mood_score = 0` and `genre_score = 0` it returns the Mystery
Blend persona — for every combination of the remaining inputs — and in
particular never reaches the House Blend fallback. -/
theorem persona_mystery_blend_first (main_mood main_genre : Option String)
    (energy_level : String) (main_context : Option String) :
    map_persona_to_coffee main_mood main_genre energy_level main_context 0 0 =
      ("☕ Mystery Blend Coffee",
       "From your description, I could not detect any of the mood/genre keywords in this small lexicon. This suggests that your taste is either very unique or simply outside my current database. You are like a mystery blend: it takes time to discover all the flavors.") ∧
    (map_persona_to_coffee main_mood main_genre energy_level main_context 0 0).1 ≠
      "🫘 House Blend" := by
  have h : map_persona_to_coffee main_mood main_genre energy_level main_context 0 0 =
      ("☕ Mystery Blend Coffee",
       "From your description, I could not detect any of the mood/genre keywords in this small lexicon. This suggests that your taste is either very unique or simply outside my current database. You are like a mystery blend: it takes time to discover all the flavors.") := by
    simp [map_persona_to_coffee]
  exact ⟨h, by rw [h]; decide⟩

/-- C2: with the fixed lexicon keys present, `decide_energy` compares
`energy["high"] + context["workout"] + context["party"]` against
`energy["low"] + context["sleep"] + context["relax"] + context["study"]`
and returns `high`/`low`/`mixed` accordingly, and its result is always
one of those three strings. -/
theorem decide_energy_spec (ec cc : List (String × Nat)) (bh bl w p sl rx st : Nat)
    (h1 : dictGet ec "high" = some bh) (h2 : dictGet ec "low" = some bl)
    (h3 : dictGet cc "workout" = some w) (h4 : dictGet cc "party" = some p)
    (h5 : dictGet cc "sleep" = some sl) (h6 : dictGet cc "relax" = some rx)
    (h7 : dictGet cc "study" = some st) :
    decide_energy ec cc =
      some (if bh + w + p > bl + sl + rx + st then "high"
        else if bl + sl + rx + st > bh + w + p then "low" else "mixed") ∧
    ∀ r, decide_energy ec cc = some r → r = "high" ∨ r = "low" ∨ r = "mixed" := by
  constructor
  · simp only [decide_energy, h1, h2, h3, h4, h5, h6, h7, Option.bind_eq_bind,
      Option.some_bind', Option.pure_def, Nat.add_assoc]
    split_ifs <;> rfl
  · exact fun r hr => decide_energy_result_mem ec cc r hr

/-- Witness for C2 at concrete count maps. -/
theorem decide_energy_spec_witness :
    decide_energy [("high", 1), ("low", 0)]
      [("study", 0), ("commute", 0), ("workout", 1), ("sleep", 0), ("relax", 0), ("party", 0)] =
      some "high" := by
  have h := (decide_energy_spec [("high", 1), ("low", 0)]
    [("study", 0), ("commute", 0), ("workout", 1), ("sleep", 0), ("relax", 0), ("party", 0)]
    1 0 1 0 0 0 0 rfl rfl rfl rfl rfl rfl rfl).1
  simpa using h

/-- C3: the lexicon counter's key list is exactly the lexicon's category
list (zero-match categories included), and each category is paired with
the number of tokens — with multiplicity — equal to some word of that
category's list; a token listed under several categories is counted in
each, since every category is counted independently. -/
theorem count_from_lexicon_spec (tokens : List String) (lexicon : List (String × List String)) :
    (count_from_lexicon tokens lexicon).map Prod.fst = lexicon.map Prod.fst ∧
    ∀ cat words, (cat, words) ∈ lexicon →
      (cat, (tokens.filter (fun t => t ∈ words)).length) ∈ count_from_lexicon tokens lexicon := by
  refine ⟨count_from_lexicon_keys tokens lexicon, ?_⟩
  intro cat words hmem
  have h : (cat, tokens.countP (fun w => words.contains w)) ∈
      count_from_lexicon tokens lexicon := List.mem_map_of_mem _ hmem
  have hc : tokens.countP (fun w => words.contains w) =
      (tokens.filter (fun t => t ∈ words)).length := by
    rw [List.countP_eq_length_filter]
    congr 1
    apply List.filter_congr
    intro a _
    simp [List.contains]
  rwa [hc] at h

/-- Witness for C3: a word shared by two categories is counted in both,
with multiplicity. -/
theorem count_from_lexicon_spec_witness :
    (count_from_lexicon ["x", "x", "y"] [("a", ["x"]), ("b", ["x", "y"])]).map Prod.fst =
      [("a", ["x"]), ("b", ["x", "y"])].map Prod.fst ∧
    ("b", 3) ∈ count_from_lexicon ["x", "x", "y"] [("a", ["x"]), ("b", ["x", "y"])] := by
  have h := count_from_lexicon_spec ["x", "x", "y"] [("a", ["x"]), ("b", ["x", "y"])]
  refine ⟨h.1, ?_⟩
  have h2 := h.2 "b" ["x", "y"] (by decide)
  have h3 : ((["x", "x", "y"] : List String).filter
      (fun t => t ∈ (["x", "y"] : List String))).length = 3 := by decide
  rw [h3] at h2
  exact h2

/-- C4: on a nonempty count map the selector returns the first key whose
count is maximal (everything declared before it counts strictly less,
everything after at most as much) together with that count; the empty
map yields `(none, 0)`. -/
theorem get_max_or_none_first_max (counts_dict : List (String × Nat)) (h : counts_dict ≠ []) :
    get_max_or_none [] = ((none : Option String), 0) ∧
    ∃ pre k v post, counts_dict = pre ++ (k, v) :: post ∧
      get_max_or_none counts_dict = (some k, v) ∧
      (∀ p ∈ pre, p.2 < v) ∧ (∀ p ∈ post, p.2 ≤ v) := by
  refine ⟨rfl, ?_⟩
  match counts_dict with
  | [] => exact absurd rfl h
  | q :: rest =>
    have hq : get_max_or_none (q :: rest) = (some (maxKey rest q).1, (maxKey rest q).2) := rfl
    rcases maxKey_split rest q with ⟨heq, hle⟩ | ⟨pre, k, v, post, hsplit, heq, hlt, hpre, hpost⟩
    · refine ⟨[], q.1, q.2, rest, by simp, ?_, by simp, hle⟩
      rw [hq, heq]
    · refine ⟨q :: pre, k, v, post, by rw [hsplit]; rfl, ?_, ?_, hpost⟩
      · rw [hq, heq]
      · intro p hp
        rcases List.mem_cons.mp hp with h' | h'
        · rw [h']; exact hlt
        · exact hpre p h'

/-- Witness for C4: a tie on the maximum is broken towards the earlier
key. -/
theorem get_max_or_none_first_max_witness :
    ([("a", 1), ("b", 2), ("c", 2)] : List (String × Nat)) ≠ [] ∧
    (get_max_or_none [] = ((none : Option String), 0) ∧
      ∃ pre k v post, ([("a", 1), ("b", 2), ("c", 2)] : List (String × Nat)) =
          pre ++ (k, v) :: post ∧
        get_max_or_none [("a", 1), ("b", 2), ("c", 2)] = (some k, v) ∧
        (∀ p ∈ pre, p.2 < v) ∧ (∀ p ∈ post, p.2 ≤ v)) :=
  ⟨by decide, get_max_or_none_first_max [("a", 1), ("b", 2), ("c", 2)] (by decide)⟩

/-- C5: the tokenizer lowercases, deletes (not replaces) punctuation,
splits on whitespace and drops empties: the empty string tokenizes to
the empty sequence, `"Rock! Rock?"` to `["rock", "rock"]` (so the
`rock` genre category counts 2), and a word with an inner apostrophe
(char 39) keeps its letters joined. -/
theorem preprocess_spec :
    preprocess "" = [] ∧
    preprocess "Rock! Rock?" = ["rock", "rock"] ∧
    preprocess (String.mk ['d', 'o', 'n', Char.ofNat 39, 't']) = ["dont"] ∧
    dictGet (count_from_lexicon (preprocess "Rock! Rock?") genre_lexicon) "rock" = some 2 := by
  refine ⟨rfl, by decide, by decide, by decide⟩

/-- Lowercasing keeps whitespace characters unchanged. -/
theorem pyLower_space {c : Char} (h : isSpace c = true) : pyLower c = c := by
  simp only [isSpace, Bool.or_eq_true, Bool.and_eq_true, decide_eq_true_eq] at h
  unfold pyLower
  rw [if_neg]
  omega

/-- Splitting an all-whitespace character list yields no words. -/
theorem splitWsAux_all_space : ∀ cs : List Char, (∀ c ∈ cs, isSpace c = true) →
    splitWsAux cs [] = []
  | [], _ => rfl
  | c :: rest, h => by
    have hc : isSpace c = true := h c (List.mem_cons_self c rest)
    have hr : ∀ x ∈ rest, isSpace x = true := fun x hx => h x (List.mem_cons_of_mem c hx)
    simp [splitWsAux, hc, splitWsAux_all_space rest hr]

/-- The tokenizer sends empty and whitespace-only strings to the empty
token sequence. -/
theorem preprocess_all_space (s : String) (h : ∀ c ∈ s.data, isSpace c = true) :
    preprocess s = [] := by
  have h1 : ∀ c ∈ s.data.map pyLower, isSpace c = true := by
    intro c hc
    obtain ⟨a, ha, rfl⟩ := List.mem_map.mp hc
    rw [pyLower_space (h a ha)]
    exact h a ha
  have h2 : ∀ c ∈ (s.data.map pyLower).filter (fun c => !(isPunct c)), isSpace c = true :=
    fun c hc => h1 c (List.mem_of_mem_filter hc)
  simp only [preprocess, splitWs]
  rw [splitWsAux_all_space _ h2]
  rfl

/-- C6: on empty or whitespace-only input the orchestrator returns
all-zero count maps, dominant scores 0, energy `"mixed"` and the Mystery
Blend persona. -/
theorem analyze_whitespace_only (s : String) (h : ∀ c ∈ s.data, isSpace c = true) :
    ∃ r, analyze_music_personality s = some r ∧
      r.tokens = [] ∧
      r.mood_counts = mood_lexicon.map (fun p => (p.1, 0)) ∧
      r.energy_counts = energy_lexicon.map (fun p => (p.1, 0)) ∧
      r.genre_counts = genre_lexicon.map (fun p => (p.1, 0)) ∧
      r.context_counts = context_lexicon.map (fun p => (p.1, 0)) ∧
      r.main_mood_score = 0 ∧ r.main_genre_score = 0 ∧ r.main_context_score = 0 ∧
      r.energy_level = "mixed" ∧
      r.coffee = "☕ Mystery Blend Coffee" := by
  refine ⟨resultOf s, analyze_music_personality_eq s, ?_⟩
  have hp : preprocess s = [] := preprocess_all_space s h
  simp only [resultOf, hp]
  decide

/-- Witness for C6 at a whitespace-only string. -/
theorem analyze_whitespace_only_witness :
    (∀ c ∈ (" \t ").data, isSpace c = true) ∧
    ∃ r, analyze_music_personality " \t " = some r ∧
      r.tokens = [] ∧
      r.mood_counts = mood_lexicon.map (fun p => (p.1, 0)) ∧
      r.energy_counts = energy_lexicon.map (fun p => (p.1, 0)) ∧
      r.genre_counts = genre_lexicon.map (fun p => (p.1, 0)) ∧
      r.context_counts = context_lexicon.map (fun p => (p.1, 0)) ∧
      r.main_mood_score = 0 ∧ r.main_genre_score = 0 ∧ r.main_context_score = 0 ∧
      r.energy_level = "mixed" ∧
      r.coffee = "☕ Mystery Blend Coffee" :=
  ⟨by decide, analyze_whitespace_only " \t " (by decide)⟩

/-- C7: on `"energetic pop and EDM at the gym"` the dominant genre is
`pop` (the pop/edm tie at count 1 breaks to the first-declared `pop`),
the dominant context is `workout`, the `high` energy count is 2
(`energetic` and `gym`), the energy level is `high`, and the persona is
the Iced Americano. -/
theorem analyze_energetic_pop_edm_gym :
    ∃ r, analyze_music_personality "energetic pop and EDM at the gym" = some r ∧
      r.main_genre = some "pop" ∧ r.main_genre_score = 1 ∧
      dictGet r.genre_counts "pop" = some 1 ∧ dictGet r.genre_counts "edm" = some 1 ∧
      r.main_context = some "workout" ∧
      dictGet r.energy_counts "high" = some 2 ∧
      r.energy_level = "high" ∧
      r.coffee = "🧊 Iced Americano" := by
  refine ⟨resultOf _, analyze_music_personality_eq _, ?_⟩
  decide

/-- C8: the orchestrator is total — for every input string it returns a
well-formed analysis result (and in particular the modelled `KeyError`
branch never fires). -/
theorem analyze_total_wellformed (s : String) :
    ∃ r, analyze_music_personality s = some r ∧ resultWellFormed r := by
  refine ⟨resultOf s, analyze_music_personality_eq s, ?_⟩
  simp only [resultOf, resultWellFormed]
  refine ⟨count_from_lexicon_keys _ _, count_from_lexicon_keys _ _,
    count_from_lexicon_keys _ _, count_from_lexicon_keys _ _, ?_,
    map_persona_to_coffee_fst_mem _ _ _ _ _ _⟩
  have hm := decide_energy_result_mem _ _ _ (decide_energy_on_counts (preprocess s))
  rcases hm with h | h | h <;> rw [h] <;> simp

/-- C9: the orchestrator is deterministic — equal input strings produce
identical analysis results. -/
theorem analyze_deterministic (s t : String) (h : s = t) :
    analyze_music_personality s = analyze_music_personality t := by
  rw [h]

/-- Witness for C9 at a concrete string. -/
theorem analyze_deterministic_witness :
    "lofi" = "lofi" ∧
    analyze_music_personality "lofi" = analyze_music_personality "lofi" :=
  ⟨rfl, analyze_deterministic "lofi" "lofi" rfl⟩

/-- C10: when no token matches any mood word, every mood count is zero
and the selector still picks the first-declared category `chill` with
score 0, so the Matcha Latte rule can fire on zero mood evidence; on the
single word `"lofi"` this yields energy `"mixed"`, context `study` with
score 0, and the Matcha Latte persona. -/
theorem no_mood_match_defaults_chill (s : String)
    (h : ∀ t ∈ preprocess s, ∀ p ∈ mood_lexicon, t ∉ p.2) :
    (∃ r, analyze_music_personality s = some r ∧
      r.main_mood = some "chill" ∧ r.main_mood_score = 0) ∧
    (∃ r, analyze_music_personality "lofi" = some r ∧
      r.main_mood = some "chill" ∧ r.main_mood_score = 0 ∧
      r.energy_level = "mixed" ∧ r.main_context = some "study" ∧
      r.main_context_score = 0 ∧ r.coffee = "🍵 Matcha Latte") := by
  constructor
  · have hz : count_from_lexicon (preprocess s) mood_lexicon =
        mood_lexicon.map (fun p => (p.1, 0)) := by
      unfold count_from_lexicon
      apply List.map_congr_left
      intro p hp
      have hcp : (preprocess s).countP (fun w => p.2.contains w) = 0 := by
        rw [List.countP_eq_zero]
        intro t ht
        simpa [List.contains] using h t ht p hp
      rw [hcp]
    refine ⟨resultOf s, analyze_music_personality_eq s, ?_, ?_⟩
    · simp only [resultOf, hz]
      decide
    · simp only [resultOf, hz]
      decide
  · refine ⟨resultOf _, analyze_music_personality_eq _, ?_⟩
    decide

/-- Witness for C10 at the single-word input `"lofi"`. -/
theorem no_mood_match_defaults_chill_witness :
    (∀ t ∈ preprocess "lofi", ∀ p ∈ mood_lexicon, t ∉ p.2) ∧
    ((∃ r, analyze_music_personality "lofi" = some r ∧
      r.main_mood = some "chill" ∧ r.main_mood_score = 0) ∧
    (∃ r, analyze_music_personality "lofi" = some r ∧
      r.main_mood = some "chill" ∧ r.main_mood_score = 0 ∧
      r.energy_level = "mixed" ∧ r.main_context = some "study" ∧
      r.main_context_score = 0 ∧ r.coffee = "🍵 Matcha Latte")) :=
  ⟨by decide, no_mood_match_defaults_chill "lofi" (by decide)⟩
